import Mathlib

/-!
Verification of the conversational editing core of the VideoVistaEdit mockup.

The development shallowly embeds the two stateful components of the repository:

* `ChatEditor` (src/src/components/ChatEditor.js): chat message list, pending
  input buffer, active scene id, active tool panel, and the simulated
  assistant reply scheduled with `setTimeout(..., 1000)`.
* `AudioPanel` (src/src/components/tool-panels/AudioPanel.js): the single
  `playing` slot shared by voice-sample and music-track previews, and the
  3-second auto-stop timer that voice playback schedules.

JavaScript strings are embedded as Lean `String`; `String.prototype.includes`
and `toLowerCase` are embedded as executable functions over the character
list (the patterns involved are ASCII, where JS and Lean lowercasing agree).
Wall-clock timestamps (`new Date()`) are not part of the model: no claim is
about them, and every `setTimeout` delay is recorded as the `Nat` number of
milliseconds passed in the source.  Asynchrony is modelled by a queue of
pending scheduled callbacks plus an explicit delivery event, matching the
single-threaded event-loop semantics of the source.
-/

set_option autoImplicit false

namespace VideoVista

/-- Embedding of `String.prototype.toLowerCase` (ASCII range, which covers
every pattern the source matches on). -/
def lowerStr (s : String) : String :=
  ⟨s.data.map Char.toLower⟩

/-- `pat` occurs at the start of `hay` (helper for substring containment). -/
def prefixAt (pat hay : List Char) : Bool :=
  match pat, hay with
  | [], _ => true
  | _ :: _, [] => false
  | a :: as, b :: bs => a == b && prefixAt as bs

/-- `pat` occurs somewhere in `hay`: embedding of `String.prototype.includes`
on the underlying character lists. -/
def containsSub (hay pat : List Char) : Bool :=
  match hay with
  | [] => prefixAt pat []
  | _ :: rest => prefixAt pat hay || containsSub rest pat

/-- `hay.includes(pat)` on strings. -/
def includesStr (hay pat : String) : Bool :=
  containsSub hay.data pat.data

/-- Case-insensitive substring containment, the matching discipline the
specification describes: lowercase both sides, then substring match. -/
def containsCI (hay pat : String) : Bool :=
  includesStr (lowerStr hay) (lowerStr pat)

/-- Embedding of `String.prototype.trim` (ASCII whitespace; the guarded
condition in the source is `input.trim() === ''`). -/
def trimStr (s : String) : String :=
  ⟨((s.data.dropWhile Char.isWhitespace).reverse.dropWhile Char.isWhitespace).reverse⟩

/-- Message author, the `type` field of a message object in the source:
`'user'` or `'ai'`. -/
inductive MsgType where
  | user
  | ai
  deriving DecidableEq, Repr

/-- A scene-option attachment, one element of the `options` array the
simulator attaches to a scene-replacement reply: `{ type: 'scene',
thumbnail: url }`. -/
structure SceneOption where
  type : String
  thumbnail : String
  deriving DecidableEq, Repr

/-- A chat message as built by `ChatEditor.js`: `id`, `type`, `content`,
optional `options` array (empty list when the field is absent) and optional
`script` field.  The wall-clock `timestamp` field is outside the model. -/
structure Message where
  id : Nat
  type : MsgType
  content : String
  options : List SceneOption
  script : Option String
  deriving DecidableEq, Repr

/-- A callback scheduled with `setTimeout`: the delay in milliseconds and the
message the callback will append. -/
structure Pending where
  delay : Nat
  msg : Message
  deriving DecidableEq, Repr

/-- The fixed default script string of the simulator's script reply. -/
def defaultScript : String :=
  "Our product helps customers achieve their goals faster and with less effort than traditional methods."

/-- The generic menu reply text of the simulator's fallback branch. -/
def genericMenuText : String :=
  "I can help you with that. Would you like to: 1) Change scenes, 2) Edit script, or 3) Adjust the storyboard?"

/-- The `aiResponse` object `generateAIResponse` builds: keyed on the
lowercased user input, first branch on `replace`/`change scene`, second on
`script`/`text`, fallback otherwise.  `histLen` is the length of the
`messages` array captured by the closure at call time (the source computes
the id as `messages.length + 2`). -/
def aiResponse (histLen : Nat) (userInput : String) : Message :=
  let lowerInput := lowerStr userInput
  if includesStr lowerInput "replace" || includesStr lowerInput "change scene" then
    { id := histLen + 2
      type := .ai
      content := "I can help replace that scene. Here are 3 alternatives I\x27ve generated based on your video style:"
      options :=
        [ { type := "scene", thumbnail := "https://via.placeholder.com/160x90/444/fff?text=Option+1" }
        , { type := "scene", thumbnail := "https://via.placeholder.com/160x90/444/fff?text=Option+2" }
        , { type := "scene", thumbnail := "https://via.placeholder.com/160x90/444/fff?text=Option+3" } ]
      script := none }
  else if includesStr lowerInput "script" || includesStr lowerInput "text" then
    { id := histLen + 2
      type := .ai
      content := "Here\x27s the current script for this scene. You can edit it directly:"
      options := []
      script := some defaultScript }
  else
    { id := histLen + 2
      type := .ai
      content := genericMenuText
      options := []
      script := none }

/-- The session state owned by `ChatEditor`: the `messages`, `input`,
`activeScene` and `activeToolPanel` `useState` hooks, plus the queue of
scheduled-but-not-yet-fired `setTimeout` callbacks. -/
structure ChatState where
  messages : List Message
  input : String
  activeScene : Nat
  activeToolPanel : Option String
  pending : List Pending
  deriving DecidableEq, Repr

/-- The scene catalog hard-coded in `ChatEditor.js`. -/
def sceneIds : List Nat := [1, 2, 3]

/-- The initial state of the component: one assistant greeting with id 1,
empty input, `activeScene = 0`, no panel open, nothing scheduled. -/
def initState : ChatState :=
  { messages :=
      [ { id := 1
          type := .ai
          content := "What would you like to change about your video?"
          options := []
          script := none } ]
    input := ""
    activeScene := 0
    activeToolPanel := none
    pending := [] }

/-- `handleSendMessage`: no-op when the input trims to empty; otherwise
appends the user message with id `messages.length + 1`, clears the input, and
schedules the simulated reply with a 1000 ms delay.  The scheduled reply is
the `aiResponse` computed over the closure's `messages` and `input`, exactly
as `generateAIResponse(input)` captures them at call time. -/
def handleSendMessage (st : ChatState) : ChatState :=
  if trimStr st.input = "" then st
  else
    let userMessage : Message :=
      { id := st.messages.length + 1
        type := .user
        content := st.input
        options := []
        script := none }
    { st with
        messages := st.messages ++ [userMessage]
        input := ""
        pending := st.pending ++ [⟨1000, aiResponse st.messages.length st.input⟩] }

/-- Firing the oldest scheduled callback: `setMessages(prev => [...prev,
aiResponse])` appends exactly the scheduled message. -/
def deliver (st : ChatState) : ChatState :=
  match st.pending with
  | [] => st
  | p :: rest => { st with messages := st.messages ++ [p.msg], pending := rest }

/-- `handleSceneClick(sceneId)`: `setActiveScene(sceneId)`, with no
validation of any kind. -/
def handleSceneClick (sceneId : Nat) (st : ChatState) : ChatState :=
  { st with activeScene := sceneId }

/-- `handleToolClick(tool)`: `setActiveToolPanel(tool)`. -/
def handleToolClick (tool : String) (st : ChatState) : ChatState :=
  { st with activeToolPanel := some tool }

/-- `handleCloseToolPanel()`: `setActiveToolPanel(null)`. -/
def handleCloseToolPanel (st : ChatState) : ChatState :=
  { st with activeToolPanel := none }

/-- The events the rendered UI can feed the component: typing a text and
clicking send, a scheduled reply firing, clicking one of the three rendered
scene thumbnails (the render maps `handleSceneClick(scene.id)` over the
catalog, so only catalog ids reach it), clicking a tool button, and closing
the open panel. -/
inductive Ev where
  | send (text : String)
  | fire
  | selectScene (i : Fin 3)
  | openTool (tool : String)
  | closeTool

/-- One UI event step. -/
def stepEv (st : ChatState) (e : Ev) : ChatState :=
  match e with
  | .send text => handleSendMessage { st with input := text }
  | .fire => deliver st
  | .selectScene i => handleSceneClick (sceneIds.get ⟨i.1, by cases i with | mk v h => simpa [sceneIds] using h⟩) st
  | .openTool tool => handleToolClick tool st
  | .closeTool => handleCloseToolPanel st

/-- Run a list of UI events from a state. -/
def run (evs : List Ev) (st : ChatState) : ChatState :=
  evs.foldl stepEv st

/-- A send immediately followed by the delivery of its scheduled reply: the
synchronous discipline in which no two replies are ever pending at once. -/
def sendThenDeliver (st : ChatState) (text : String) : ChatState :=
  deliver (handleSendMessage { st with input := text })

/-- Run a list of sends in the synchronous discipline. -/
def runSync (texts : List String) (st : ChatState) : ChatState :=
  texts.foldl sendThenDeliver st

/-- A session state with no messages at all, the premise of the spec's
walk-through scenario. -/
def emptySession : ChatState :=
  { messages := []
    input := ""
    activeScene := 0
    activeToolPanel := none
    pending := [] }

/-- The content-bearing part of a message: everything except its id (the
wall-clock timestamp being outside the model). -/
def msgBody (m : Message) : MsgType × String × List SceneOption × Option String :=
  (m.type, m.content, m.options, m.script)

/-- The panel-local state of `AudioPanel`: the `activeTab`, `playing` and
`script` hooks, plus the queue of pending `setTimeout(() => setPlaying(null),
3000)` auto-stop callbacks recorded by their delays. -/
structure AudioState where
  activeTab : String
  playing : Option String
  script : String
  stopTimers : List Nat
  deriving DecidableEq, Repr

/-- The initial `AudioPanel` state: voice tab, nothing playing, the default
script text, nothing scheduled. -/
def initAudioState : AudioState :=
  { activeTab := "voice"
    playing := none
    script := defaultScript
    stopTimers := [] }

/-- `handlePlayVoice(voiceId)`: toggle off when this very id is playing;
otherwise start it and schedule the 3000 ms auto-stop callback. -/
def handlePlayVoice (voiceId : String) (st : AudioState) : AudioState :=
  if st.playing = some voiceId then { st with playing := none }
  else { st with playing := some voiceId, stopTimers := st.stopTimers ++ [3000] }

/-- `handlePlayMusic(trackId)`: toggle off when this very id is playing;
otherwise start it.  No callback is scheduled. -/
def handlePlayMusic (trackId : String) (st : AudioState) : AudioState :=
  if st.playing = some trackId then { st with playing := none }
  else { st with playing := some trackId }

/-- Firing the oldest scheduled auto-stop callback: `setPlaying(null)`.
With nothing scheduled there is nothing to fire. -/
def fireStop (st : AudioState) : AudioState :=
  match st.stopTimers with
  | [] => st
  | _ :: rest => { st with playing := none, stopTimers := rest }

/-- Ids of a consecutively numbered message list, with no reply pending. -/
def IdsConsecutive (st : ChatState) : Prop :=
  st.messages.map Message.id = List.range' 1 st.messages.length ∧ st.pending = []

/-! ### Helper lemmas -/

/-- Every branch of the simulator produces an assistant-authored message. -/
theorem aiResponse_type_ai (n : Nat) (s : String) : (aiResponse n s).type = .ai := by
  unfold aiResponse
  dsimp only
  split
  · rfl
  · split <;> rfl

/-- The simulator's id is always the captured history length plus two. -/
theorem aiResponse_id (n : Nat) (s : String) : (aiResponse n s).id = n + 2 := by
  unfold aiResponse
  dsimp only
  split
  · rfl
  · split <;> rfl

/-- Sending never touches the active scene. -/
theorem handleSendMessage_activeScene (st : ChatState) :
    (handleSendMessage st).activeScene = st.activeScene := by
  unfold handleSendMessage
  split <;> rfl

/-- Delivering a reply never touches the active scene. -/
theorem deliver_activeScene (st : ChatState) :
    (deliver st).activeScene = st.activeScene := by
  unfold deliver
  split <;> rfl

/-- No UI step changes `activeScene` except a scene click, which stores a
catalog id. -/
theorem stepEv_activeScene (st : ChatState) (e : Ev) :
    (stepEv st e).activeScene = st.activeScene ∨ (stepEv st e).activeScene ∈ sceneIds := by
  cases e with
  | send text => exact Or.inl (handleSendMessage_activeScene _)
  | fire => exact Or.inl (deliver_activeScene st)
  | selectScene i => exact Or.inr (List.get_mem _ _ _)
  | openTool tool => exact Or.inl rfl
  | closeTool => exact Or.inl rfl

/-- The catalog-membership invariant on `activeScene` is preserved by every
UI run. -/
theorem run_activeScene_invariant (evs : List Ev) (st : ChatState)
    (h : st.activeScene = 0 ∨ st.activeScene ∈ sceneIds) :
    (run evs st).activeScene = 0 ∨ (run evs st).activeScene ∈ sceneIds := by
  induction evs generalizing st with
  | nil => exact h
  | cons e evs ih =>
      have hstep := stepEv_activeScene st e
      refine ih (stepEv st e) ?_
      rcases hstep with hsame | hmem
      · rw [hsame]; exact h
      · exact Or.inr hmem

/-- One synchronous send-then-deliver step keeps the ids consecutive. -/
theorem sendThenDeliver_consecutive (st : ChatState) (t : String)
    (h : IdsConsecutive st) : IdsConsecutive (sendThenDeliver st t) := by
  obtain ⟨hids, hpend⟩ := h
  unfold sendThenDeliver handleSendMessage
  split
  · unfold deliver
    simp only [hpend]
    exact ⟨hids, rfl⟩
  · unfold deliver
    simp only [hpend, List.nil_append]
    constructor
    · simp only [List.map_append, List.length_append, List.map_cons, List.map_nil,
        List.length_cons, List.length_nil, hids, aiResponse_id]
      have h2 : [st.messages.length + 1, st.messages.length + 2] =
          List.range' (1 + st.messages.length) 2 := by
        simp [List.range']
        omega
      rw [List.append_assoc, List.singleton_append, h2, List.range'_append_1]
      congr 1
      omega
    · rfl

/-- The synchronous discipline keeps the ids consecutive, from any state
that has them consecutive. -/
theorem runSync_consecutive_aux (texts : List String) (st : ChatState)
    (h : IdsConsecutive st) : IdsConsecutive (runSync texts st) := by
  induction texts generalizing st with
  | nil => exact h
  | cons t ts ih => exact ih (sendThenDeliver st t) (sendThenDeliver_consecutive st t h)

/-- In the synchronous discipline the ids stay consecutive from the initial
state on. -/
theorem runSync_consecutive (texts : List String) :
    IdsConsecutive (runSync texts initState) :=
  runSync_consecutive_aux texts initState ⟨rfl, rfl⟩

/-! ### Claim theorems -/

/-- Claim C1: the response simulator maps input text to a reply by
case-insensitive substring match in priority order, first match wins: input
containing `replace` or `change scene` yields a reply with exactly 3
scene-option attachments; otherwise input containing `script` or `text`
yields one script-draft attachment whose text is the fixed default script;
otherwise the reply is the fixed generic menu text with no attachments.
Holds for every input string (and every captured history length). -/
theorem claim1_simulator_policy (histLen : Nat) (input : String) :
    ((containsCI input "replace" = true ∨ containsCI input "change scene" = true) →
      (aiResponse histLen input).options.length = 3
        ∧ (aiResponse histLen input).script = none)
  ∧ (containsCI input "replace" = false → containsCI input "change scene" = false →
      (containsCI input "script" = true ∨ containsCI input "text" = true) →
      (aiResponse histLen input).options = []
        ∧ (aiResponse histLen input).script = some defaultScript)
  ∧ (containsCI input "replace" = false → containsCI input "change scene" = false →
      containsCI input "script" = false → containsCI input "text" = false →
      (aiResponse histLen input).content = genericMenuText
        ∧ (aiResponse histLen input).options = []
        ∧ (aiResponse histLen input).script = none) := by
  have e1 : containsCI input "replace" = includesStr (lowerStr input) "replace" := by
    unfold containsCI
    rw [show lowerStr "replace" = "replace" from by decide]
  have e2 : containsCI input "change scene" = includesStr (lowerStr input) "change scene" := by
    unfold containsCI
    rw [show lowerStr "change scene" = "change scene" from by decide]
  have e3 : containsCI input "script" = includesStr (lowerStr input) "script" := by
    unfold containsCI
    rw [show lowerStr "script" = "script" from by decide]
  have e4 : containsCI input "text" = includesStr (lowerStr input) "text" := by
    unfold containsCI
    rw [show lowerStr "text" = "text" from by decide]
  rw [e1, e2, e3, e4]
  unfold aiResponse
  dsimp only
  cases h1 : includesStr (lowerStr input) "replace" <;>
    cases h2 : includesStr (lowerStr input) "change scene" <;>
      cases h3 : includesStr (lowerStr input) "script" <;>
        cases h4 : includesStr (lowerStr input) "text" <;>
          simp [h1, h2, h3, h4]

/-- Witness for C1 at the spec's three sample inputs. -/
theorem claim1_simulator_policy_witness :
    (aiResponse 0 "please replace this scene").options.length = 3
      ∧ (aiResponse 0 "edit the script").script = some defaultScript
      ∧ (aiResponse 0 "hello").content = genericMenuText :=
  ⟨((claim1_simulator_policy 0 "please replace this scene").1 (Or.inl (by decide))).1,
   ((claim1_simulator_policy 0 "edit the script").2.1 (by decide) (by decide)
      (Or.inl (by decide))).2,
   ((claim1_simulator_policy 0 "hello").2.2 (by decide) (by decide) (by decide) (by decide)).1⟩

/-- Claim C2: sending a message whose trimmed text is non-empty appends
exactly one user-authored message immediately, clears the pending input
buffer, and schedules exactly one assistant reply with the fixed 1000 ms
delay, whose firing appends exactly that one assistant message; input that
trims to empty is a complete no-op. -/
theorem claim2_send_message (st : ChatState) :
    (¬ trimStr st.input = "" →
      (handleSendMessage st).messages =
          st.messages ++
            [{ id := st.messages.length + 1, type := .user, content := st.input,
               options := [], script := none }]
        ∧ (handleSendMessage st).input = ""
        ∧ (handleSendMessage st).pending =
            st.pending ++ [⟨1000, aiResponse st.messages.length st.input⟩]
        ∧ (aiResponse st.messages.length st.input).type = .ai)
  ∧ (trimStr st.input = "" → handleSendMessage st = st)
  ∧ (∀ st2 : ChatState, ∀ p : Pending, ∀ rest : List Pending,
      st2.pending = p :: rest →
        (deliver st2).messages = st2.messages ++ [p.msg]
          ∧ (deliver st2).pending = rest) := by
  refine ⟨?_, ?_, ?_⟩
  · intro h
    unfold handleSendMessage
    rw [if_neg h]
    exact ⟨rfl, rfl, rfl, aiResponse_type_ai _ _⟩
  · intro h
    unfold handleSendMessage
    rw [if_pos h]
  · intro st2 p rest h
    unfold deliver
    rw [h]
    exact ⟨rfl, rfl⟩

/-- Witness for C2 at a concrete state with input `hi`. -/
theorem claim2_send_message_witness :
    ¬ trimStr ({ initState with input := "hi" } : ChatState).input = ""
      ∧ (handleSendMessage { initState with input := "hi" }).input = "" :=
  ⟨by decide, ((claim2_send_message { initState with input := "hi" }).1 (by decide)).2.1⟩

/-- Claim C3 as stated is false: with two sends before either delayed reply
fires, the reply scheduled by the first send is appended after a message
with the same id (the ids along this run are 1, 2, 3, 3, 4), so a
later-appended message need not have a strictly greater id. -/
theorem claim3_counterexample :
    ¬ ((run [Ev.send "a", Ev.send "b", Ev.fire, Ev.fire] initState).messages.map
        Message.id).Pairwise (fun a b => a < b) := by decide

/-- Claim C3 amended: message ids are strictly increasing along the log,
regardless of author, in every session in which each send's delayed
assistant reply is delivered before the next send occurs (with overlapping
pending replies the id computed at send time can collide, as the
counterexample shows). -/
theorem claim3_ids_strictly_increasing (texts : List String) :
    ((runSync texts initState).messages.map Message.id).Pairwise
      (fun a b => a < b) := by
  have h := runSync_consecutive texts
  rw [h.1]
  exact List.pairwise_lt_range' _ _

/-- Claim C4 as stated is false: the reply message depends on the session's
message history, because its id is the captured history length plus two;
the same input `hello` in two sessions with different message counts gives
different reply messages. -/
theorem claim4_counterexample : aiResponse 1 "hello" ≠ aiResponse 2 "hello" := by
  decide

/-- Claim C4 amended: the simulator is deterministic and history-independent
in everything except the reply's id: author, text and attachments are a
function of the input text alone, while the id is always the captured
history length plus two. -/
theorem claim4_simulator_determinism (n m : Nat) (s : String) :
    msgBody (aiResponse n s) = msgBody (aiResponse m s)
      ∧ (aiResponse n s).id = n + 2 := by
  refine ⟨?_, aiResponse_id n s⟩
  by_cases h1 : (includesStr (lowerStr s) "replace"
      || includesStr (lowerStr s) "change scene") = true
  · simp [aiResponse, msgBody, h1]
  · by_cases h2 : (includesStr (lowerStr s) "script"
        || includesStr (lowerStr s) "text") = true
    · simp [aiResponse, msgBody, h1, h2]
    · simp [aiResponse, msgBody, h1, h2]

/-- Claim C5: from an empty session, sending `change scene` and letting the
reply delay elapse leaves exactly 2 messages, the last being an assistant
message with exactly 3 scene-option attachments. -/
theorem claim5_change_scene_scenario :
    (run [Ev.send "change scene", Ev.fire] emptySession).messages.length = 2
      ∧ ((run [Ev.send "change scene", Ev.fire] emptySession).messages.getLast?).map
          (fun m => (m.type, m.options.length)) = some (MsgType.ai, 3) := by
  decide

/-- Claim C6 as stated is false: `handleSceneClick` performs no catalog
check, so selecting the id 99, which is not in the catalog, is not a no-op:
it stores 99 in `activeScene`. -/
theorem claim6_counterexample :
    handleSceneClick 99 initState ≠ initState
      ∧ (handleSceneClick 99 initState).activeScene = 99
      ∧ ¬ 99 ∈ sceneIds := by decide

/-- Claim C6 amended: `select_scene(id)` unconditionally stores `id` in
`active_scene_id`, with no catalog validation; the invariant that
`active_scene_id` is either 0 (the unselected initial value) or an id in the
scene catalog nevertheless holds in every state reachable through the UI,
because the rendered thumbnails invoke the handler only with catalog ids. -/
theorem claim6_scene_selection (sceneId : Nat) (st : ChatState) (evs : List Ev) :
    handleSceneClick sceneId st = { st with activeScene := sceneId }
      ∧ ((run evs initState).activeScene = 0
          ∨ (run evs initState).activeScene ∈ sceneIds) :=
  ⟨rfl, run_activeScene_invariant evs initState (Or.inl rfl)⟩

/-- Claim C7: the Audio panel has a single `playing` slot, so at most one
preview id is playing at any time, and starting preview B (voice or music)
while a different preview A is playing stops A and plays B. -/
theorem claim7_single_playing_slot (st : AudioState) (a b : String) :
    (st.playing = some a → ¬ b = a →
      (handlePlayVoice b st).playing = some b
        ∧ (handlePlayMusic b st).playing = some b
        ∧ ¬ (handlePlayVoice b st).playing = some a
        ∧ ¬ (handlePlayMusic b st).playing = some a)
  ∧ (∀ x y : String, st.playing = some x → st.playing = some y → x = y) := by
  constructor
  · intro hp hne
    have hcond : ¬ st.playing = some b := by
      rw [hp]
      intro hc
      exact hne (Option.some_inj.mp hc).symm
    refine ⟨?_, ?_, ?_, ?_⟩ <;>
      simp [handlePlayVoice, handlePlayMusic, hcond, hne]
  · intro x y hx hy
    rw [hx] at hy
    exact Option.some_inj.mp hy

/-- Witness for C7: starting music track `m1` while voice `v1` plays. -/
theorem claim7_single_playing_slot_witness :
    (handlePlayMusic "m1" { initAudioState with playing := some "v1" }).playing
      = some "m1" :=
  ((claim7_single_playing_slot { initAudioState with playing := some "v1" }
      "v1" "m1").1 rfl (by decide)).2.1

/-- Claim C8: the tool panel slot is a single optional value, so at most one
panel is open at a time, and closing is idempotent: closing with no panel
open is a no-op, and closing twice equals closing once. -/
theorem claim8_panel_exclusive (st : ChatState) :
    (∀ p q : String, st.activeToolPanel = some p → st.activeToolPanel = some q → p = q)
  ∧ (st.activeToolPanel = none → handleCloseToolPanel st = st)
  ∧ handleCloseToolPanel (handleCloseToolPanel st) = handleCloseToolPanel st := by
  refine ⟨?_, ?_, rfl⟩
  · intro p q hp hq
    rw [hp] at hq
    exact Option.some_inj.mp hq
  · intro h
    cases st
    simp_all [handleCloseToolPanel]

/-- Witness for C8: closing with no panel open leaves the initial state
unchanged. -/
theorem claim8_panel_exclusive_witness :
    initState.activeToolPanel = none ∧ handleCloseToolPanel initState = initState :=
  ⟨rfl, (claim8_panel_exclusive initState).2.1 rfl⟩

/-- Claim C9: starting a voice preview sets `playing` and schedules the
3000 ms auto-stop whose firing resets `playing` to none; starting a music
track sets `playing` and schedules nothing, and with nothing scheduled the
state never resets on its own. -/
theorem claim9_voice_autostop_music_not (st : AudioState) (voiceId trackId : String) :
    (¬ st.playing = some voiceId →
      (handlePlayVoice voiceId st).playing = some voiceId
        ∧ (handlePlayVoice voiceId st).stopTimers = st.stopTimers ++ [3000])
  ∧ (∀ st2 : AudioState, ∀ d : Nat, ∀ rest : List Nat,
      st2.stopTimers = d :: rest →
        (fireStop st2).playing = none ∧ (fireStop st2).stopTimers = rest)
  ∧ (¬ st.playing = some trackId →
      (handlePlayMusic trackId st).playing = some trackId
        ∧ (handlePlayMusic trackId st).stopTimers = st.stopTimers)
  ∧ (st.stopTimers = [] → fireStop st = st) := by
  refine ⟨?_, ?_, ?_, ?_⟩
  · intro h
    unfold handlePlayVoice
    rw [if_neg h]
    exact ⟨rfl, rfl⟩
  · intro st2 d rest h
    unfold fireStop
    rw [h]
    exact ⟨rfl, rfl⟩
  · intro h
    unfold handlePlayMusic
    rw [if_neg h]
    exact ⟨rfl, rfl⟩
  · intro h
    unfold fireStop
    rw [h]

/-- Witness for C9: playing voice `v1`, then music `m1`, from the fresh
panel state. -/
theorem claim9_voice_autostop_music_not_witness :
    (handlePlayVoice "v1" initAudioState).stopTimers = initAudioState.stopTimers ++ [3000]
      ∧ (handlePlayMusic "m1" initAudioState).stopTimers = initAudioState.stopTimers :=
  ⟨((claim9_voice_autostop_music_not initAudioState "v1" "m1").1 (by decide)).2,
   ((claim9_voice_autostop_music_not initAudioState "v1" "m1").2.2.1 (by decide)).2⟩

/-- Claim C10: play is a toggle: playing the id that is currently playing
stops it (and starts nothing else, scheduling nothing); playing any id while
a different one (or nothing) is playing starts the new one. -/
theorem claim10_play_toggle (st : AudioState) (x y : String) :
    (st.playing = some x →
      (handlePlayVoice x st).playing = none
        ∧ (handlePlayVoice x st).stopTimers = st.stopTimers
        ∧ (handlePlayMusic x st).playing = none
        ∧ (handlePlayMusic x st).stopTimers = st.stopTimers)
  ∧ (st.playing = some x → ¬ y = x →
      (handlePlayVoice y st).playing = some y
        ∧ (handlePlayMusic y st).playing = some y)
  ∧ (st.playing = none →
      (handlePlayVoice y st).playing = some y
        ∧ (handlePlayMusic y st).playing = some y) := by
  refine ⟨?_, ?_, ?_⟩
  · intro h
    refine ⟨?_, ?_, ?_, ?_⟩ <;> simp [handlePlayVoice, handlePlayMusic, h]
  · intro h hne
    have hcond : ¬ st.playing = some y := by
      rw [h]
      intro hc
      exact hne (Option.some_inj.mp hc).symm
    constructor <;> simp [handlePlayVoice, handlePlayMusic, hcond]
  · intro h
    have hcond : ¬ st.playing = some y := by
      rw [h]
      exact fun hc => Option.noConfusion hc
    constructor <;> simp [handlePlayVoice, handlePlayMusic, hcond]

/-- Witness for C10: toggling music track `m2` off by playing it again. -/
theorem claim10_play_toggle_witness :
    (handlePlayMusic "m2" { initAudioState with playing := some "m2" }).playing
      = none :=
  ((claim10_play_toggle { initAudioState with playing := some "m2" } "m2" "m2").1
      rfl).2.2.1

end VideoVista
